import Mathlib

/-!
Formal model of the angel-one-backend HTTP handlers (src/index.js and the
sibling versions under src/unnamed).  Upstream HTTP calls are modelled as
oracle values supplied through an environment: a call that throws is an
`Except.error ()`, a call that returns a null/undefined payload is
`Except.ok none`, and machine numbers are exact rationals (every number the
handlers manipulate stays finite because each division is guarded by the
code, except where explicitly noted).
-/

namespace AngelOne

/-- One OHLCV candle.  The upstream returns an array
[timestamp, open, high, low, close, volume]; the handlers only ever read
index 4, the closing price (`c[4]` in src/index.js line 154). -/
structure Candle where
  time : String
  o : ℚ
  hi : ℚ
  lo : ℚ
  close : ℚ
  vol : ℚ
  deriving DecidableEq, Repr

/-- Result of one getHistoricalData call (src/index.js lines 39-62):
`error` models the rethrown axios failure, `ok none` models a
null/undefined `response.data.data`, `ok (some cs)` a candle array. -/
abbrev FetchResult := Except Unit (Option (List Candle))

/-- Payload of the LTP quote call: `ltp` is `none` when the field is
undefined or null (src/index.js line 174 checks both). -/
structure LiveData where
  ltp : Option ℚ
  deriving DecidableEq, Repr

/-- Upstream oracle for one /api/stock-analysis request: the year-long
historical fetch, the live-quote call, and the per-day historical fetches
of the backward search (`prevDay i` is the fetch for the day `i` days
before yesterday, so `prevDay 0` is yesterday). -/
structure AnalysisEnv where
  yearFetch : FetchResult
  quote : Except Unit (Option LiveData)
  prevDay : Nat → FetchResult

/-- Backward previous-trading-day search (src/index.js lines 184-195):
starting at day index `i` with `fuel` remaining iterations, fetch each day;
stop at the first day whose candle list is non-empty and return its first
candle's close, propagate a thrown fetch, give up with `none` when the fuel
runs out.  Also returns the number of fetches performed. -/
def prevCloseLoop (fetch : Nat → FetchResult) : Nat → Nat → (Except Unit (Option ℚ)) × Nat
  | _, 0 => (.ok none, 0)
  | i, Nat.succ fuel =>
    match fetch i with
    | .error e => (.error e, 1)
    | .ok (some (c :: _)) => (.ok (some c.close), 1)
    | .ok (some []) =>
      let r := prevCloseLoop fetch (i + 1) fuel
      (r.1, r.2 + 1)
    | .ok none =>
      let r := prevCloseLoop fetch (i + 1) fuel
      (r.1, r.2 + 1)

/-- Modelled from the spec: `SMA.calculate` of the external
technicalindicators package is not part of this repository; per spec
section 4.2 it is the arithmetic mean over each trailing window of
`period` closes, one output value per window. -/
def SMAcalculate (period : Nat) (values : List ℚ) : List ℚ :=
  (List.range (values.length + 1 - period)).map
    (fun i => ((values.drop i).take period).sum / (period : ℚ))

/-- Differences between consecutive values of a window. -/
def moves (w : List ℚ) : List ℚ :=
  (w.zip w.tail).map (fun p => p.2 - p.1)

/-- Modelled from the spec: RSI of one window, built from the average of
up and down moves (spec section 4.2); the exact numeric form is irrelevant
to every claim, only that a value exists per window. -/
def rsiOfWindow (w : List ℚ) : ℚ :=
  let g := ((moves w).map (fun x => max x 0)).sum
  let s := ((moves w).map (fun x => max (-x) 0)).sum
  if g + s = 0 then 100 else 100 * g / (g + s)

/-- Modelled from the spec: `RSI.calculate` of the external
technicalindicators package is not part of this repository; per spec
sections 3 and 4.2 it produces one value per trailing window of `period`
closes, so the output is non-empty exactly when the series has at least
`period` points. -/
def RSIcalculate (period : Nat) (values : List ℚ) : List ℚ :=
  (List.range (values.length + 1 - period)).map
    (fun i => rsiOfWindow ((values.drop i).take period))

/-- JS `l.length > 0 ? l[l.length - 1] : null` (src/index.js lines 236-239). -/
def lastOrNull (l : List ℚ) : Option ℚ := l.getLast?

/-- Body of a successful /api/stock-analysis response
(src/index.js lines 232-240). -/
structure AnalysisBody where
  currentPrice : Option ℚ
  netChange : Option ℚ
  percentChange : Option ℚ
  rsi : Option ℚ
  dma20 : Option ℚ
  dma50 : Option ℚ
  dma200 : Option ℚ
  deriving DecidableEq, Repr

/-- HTTP outcome of /api/stock-analysis: 200 with a body, 404
(no historical data), or 500 (year fetch threw). -/
inductive AnalysisResponse
  | ok (body : AnalysisBody)
  | notFound
  | serverError
  deriving DecidableEq, Repr

/-- Instrumented run of /api/stock-analysis: the response plus whether the
live-quote call was made, how many backward-search fetches ran, and
whether the historical-fallback catch branch executed. -/
structure AnalysisTrace where
  response : AnalysisResponse
  quoteCalled : Bool
  prevFetches : Nat
  usedFallback : Bool
  deriving DecidableEq, Repr

/-- Fallback price resolution (src/index.js lines 212-229): last close as
current price; second-to-last close as previous close when at least two
points exist, change fields 0 when it is 0 or when only one point exists;
all three fields stay null when the series is empty (unreachable in the
handler, which 404s first, but kept faithful to the code). -/
def fallbackPrices (closes : List ℚ) : Option ℚ × Option ℚ × Option ℚ :=
  match closes.getLast? with
  | none => (none, none, none)
  | some cur =>
    if h : 1 < closes.length then
      let prev := closes.get ⟨closes.length - 2, by omega⟩
      if prev ≠ 0 then (some cur, some (cur - prev), some ((cur - prev) / prev * 100))
      else (some cur, some 0, some 0)
    else (some cur, some 0, some 0)

/-- The /api/stock-analysis handler (src/index.js lines 138-245) as a
function of its upstream oracle.  The inner try block spans the quote call,
the backward search and the change computation, so a throw anywhere in it
(including a backward-search fetch) lands in the fallback catch. -/
def stockAnalysisRun (env : AnalysisEnv) : AnalysisTrace :=
  match env.yearFetch with
  | .error _ => ⟨.serverError, false, 0, false⟩
  | .ok none => ⟨.notFound, false, 0, false⟩
  | .ok (some candles) =>
    if candles.length = 0 then ⟨.notFound, false, 0, false⟩
    else
      let closes := candles.map Candle.close
      let rsiL := if 14 ≤ closes.length then RSIcalculate 14 closes else []
      let sma20L := if 20 ≤ closes.length then SMAcalculate 20 closes else []
      let sma50L := if 50 ≤ closes.length then SMAcalculate 50 closes else []
      let sma200L := if 200 ≤ closes.length then SMAcalculate 200 closes else []
      let finish : Option ℚ × Option ℚ × Option ℚ → Nat → Bool → AnalysisTrace :=
        fun prices pf fb =>
          ⟨.ok ⟨prices.1, prices.2.1, prices.2.2, lastOrNull rsiL,
                lastOrNull sma20L, lastOrNull sma50L, lastOrNull sma200L⟩,
           true, pf, fb⟩
      match env.quote with
      | .error _ => finish (fallbackPrices closes) 0 true
      | .ok none => finish (fallbackPrices closes) 0 true
      | .ok (some ld) =>
        match ld.ltp with
        | none => finish (fallbackPrices closes) 0 true
        | some p =>
          match prevCloseLoop env.prevDay 0 5 with
          | (.error _, k) => finish (fallbackPrices closes) k true
          | (.ok pc, k) =>
            match pc with
            | some q =>
              if q ≠ 0 then finish (some p, some (p - q), some ((p - q) / q * 100)) k false
              else finish (some p, some 0, some 0) k false
            | none => finish (some p, some 0, some 0) k false

/-- Body of a successful /api/technical-indicators response
(src/unnamed/part_002 lines 176-182): plain JS indexing with no null
guards, so a field is undefined (none) only when its list is empty. -/
structure IndicatorsBody where
  currentPrice : Option ℚ
  rsi : Option ℚ
  dma20 : Option ℚ
  dma50 : Option ℚ
  dma200 : Option ℚ
  deriving DecidableEq, Repr

/-- HTTP outcome of /api/technical-indicators: 200 with a body, 404
(series missing or shorter than 200), or 500 (year fetch threw). -/
inductive IndicatorsResponse
  | ok (body : IndicatorsBody)
  | notFound
  | serverError
  deriving DecidableEq, Repr

/-- The /api/technical-indicators handler (src/unnamed/part_002 lines
153-186); the /api/stock-analysis version of src/unnamed/part_001 lines
339-377 shares the same guard and indicator pipeline (differing only in
taking currentPrice from a live quote).  Any fetched series that is
missing or shorter than 200 candles is rejected with 404
(`if (!candles || candles.length < 200)`), and otherwise all four
indicators are computed unconditionally and reported. -/
def technicalIndicatorsRun (yearFetch : FetchResult) : IndicatorsResponse :=
  match yearFetch with
  | .error _ => .serverError
  | .ok none => .notFound
  | .ok (some candles) =>
    if candles.length < 200 then .notFound
    else
      let closes := candles.map Candle.close
      .ok ⟨lastOrNull closes,
           lastOrNull (RSIcalculate 14 closes),
           lastOrNull (SMAcalculate 20 closes),
           lastOrNull (SMAcalculate 50 closes),
           lastOrNull (SMAcalculate 200 closes)⟩

/-- One standardized entry pushed in the OHLC fallback of /api/market-data
(src/index.js lines 334-340): ltp and close both set to the day's close,
plus the reconciled change fields. -/
structure MarketEntry where
  ltp : ℚ
  netChange : ℚ
  percentChange : ℚ
  close : ℚ
  deriving DecidableEq, Repr

/-- Per-item price reconciliation of the OHLC fallback branch of
/api/market-data (src/index.js lines 309-341): run the same bounded
backward search for the previous close, then
netChange = previousClose !== null ? currentClose - previousClose : 0 and
percentChange = (previousClose !== null && previousClose !== 0)
? netChange / previousClose * 100 : 0.  A throwing fetch propagates to the
endpoint's outer catch (whole request becomes a 500), modelled as error. -/
def marketDataItem (prevFetch : Nat → FetchResult) (ohlcClose : ℚ) :
    Except Unit MarketEntry :=
  match prevCloseLoop prevFetch 0 5 with
  | (.error e, _) => .error e
  | (.ok pc, _) =>
    let netChange : ℚ :=
      match pc with
      | some q => ohlcClose - q
      | none => 0
    let percentChange : ℚ :=
      match pc with
      | some q => if q ≠ 0 then netChange / q * 100 else 0
      | none => 0
    .ok ⟨ohlcClose, netChange, percentChange, ohlcClose⟩

/-- Input stock record of the /api/top-performers map
(src/unnamed/part_002 lines 202-212). -/
structure OhlcStock where
  name : String
  tradingSymbol : String
  ltp : ℚ
  ohlcClose : ℚ
  deriving DecidableEq, Repr

/-- Output record of the /api/top-performers map. -/
structure Performer where
  name : String
  symbol : String
  price : ℚ
  change : ℚ
  percentChange : ℚ
  deriving DecidableEq, Repr

/-- Per-stock computation of /api/top-performers (src/unnamed/part_002
lines 202-212): change = ltp - ohlc.close and
percentChange = change / ohlc.close * 100 with NO zero guard.  Caveat: at
ohlcClose = 0 the source's JS division yields Infinity or NaN while ℚ
division by zero yields 0, so no theorem here states the percentChange
value at ohlcClose = 0; only the guard-free netChange is used there. -/
def topPerformerEntry (s : OhlcStock) : Performer :=
  let change := s.ltp - s.ohlcClose
  let percentChange := change / s.ohlcClose * 100
  ⟨s.name, s.tradingSymbol, s.ltp, change, percentChange⟩

/-- One row of the upstream instrument master list; the handlers read
exch_seg and symbol, and pass whole rows through. -/
structure Instrument where
  exch_seg : String
  symbol : String
  token : String
  deriving DecidableEq, Repr

/-- The exchange segment the equity filter matches. -/
def nseSeg : String := "NSE"

/-- The equity symbol suffix the filter matches. -/
def eqSuffix : String := "-EQ"

/-- JS String.prototype.endsWith, as used by `symbol.endsWith('-EQ')`:
true when t is a suffix of s (computed over the character lists so that
concrete instances evaluate). -/
def strEndsWith (s t : String) : Bool :=
  List.isPrefixOf t.data.reverse s.data.reverse

/-- The /api/instruments handler of src/index.js lines 115-127 (identical
in src/unnamed/part_001 lines 25-38 and 310-322, part_002 lines 124-136,
part_000 lines 19-35 and 167-179): keep exactly the rows with
exch_seg === 'NSE' whose symbol ends with '-EQ'. -/
def instrumentsFiltered (upstream : List Instrument) : List Instrument :=
  upstream.filter (fun i => i.exch_seg == nseSeg && strEndsWith i.symbol eqSuffix)

/-- The /api/instruments handler of src/unnamed/part_000 lines 571-579:
res.json(response.data) returns the upstream list unfiltered. -/
def instrumentsRaw (upstream : List Instrument) : List Instrument :=
  upstream

/-- The in-memory session record (src/index.js lines 20-25); the profile
object is abstracted to an optional opaque value. -/
structure Session where
  jwtToken : Option String
  feedToken : Option String
  refreshToken : Option String
  profile : Option String
  deriving DecidableEq, Repr

/-- JS falsiness of an optional string: null/undefined and the empty
string are falsy (the `!x` tests of src/index.js lines 32 and 73). -/
def falsyStr (v : Option String) : Bool :=
  match v with
  | none => true
  | some s => s == ""

/-- Outcome of running a guarded route: HTTP status, number of upstream
network calls made, and the session record afterwards. -/
structure RouteResult where
  status : Nat
  upstreamCalls : Nat
  finalSession : Session
  deriving DecidableEq, Repr

/-- The requireLogin middleware (src/index.js lines 31-36): when the
session's jwtToken is falsy respond 401 without invoking the handler;
otherwise run the handler on the current session. -/
def requireLogin (s : Session) (handler : Session → RouteResult) : RouteResult :=
  if falsyStr s.jwtToken then ⟨401, 0, s⟩ else handler s

/-- The four broker credentials read from the process environment
(src/index.js lines 13-16); `none` models an absent variable. -/
structure Creds where
  apiKey : Option String
  clientId : Option String
  password : Option String
  totpSecret : Option String
  deriving DecidableEq, Repr

/-- The /api/login handler's credential guard (src/index.js lines 71-76):
when any of the four credentials is falsy respond 500 making no network
call and leaving the session unchanged; otherwise the body `rest` of the
handler runs. -/
def loginRoute (c : Creds) (s : Session) (rest : Session → RouteResult) :
    RouteResult :=
  if falsyStr c.apiKey || falsyStr c.clientId || falsyStr c.password ||
      falsyStr c.totpSecret then
    ⟨500, 0, s⟩
  else rest s

/-- Guard sequence of /api/company-details (src/unnamed/part_001 lines
69-77, identically part_002 lines 224-232): first the GEMINI_API_KEY check
(500), then the companyName check (400), then the AI call `rest`.  The
pair is (HTTP status, upstream AI calls made). -/
def companyDetailsRoute (geminiKey : Option String) (companyName : Option String)
    (rest : Nat × Nat) : Nat × Nat :=
  if falsyStr geminiKey then (500, 0)
  else if falsyStr companyName then (400, 0)
  else rest

/-- Guard sequence of /api/generate-news-summary (src/index.js lines
374-383): first the companyName check (400), then the GEMINI_API_KEY
check (500), then the AI call `rest`. -/
def newsSummaryRoute (companyName : Option String) (geminiKey : Option String)
    (rest : Nat × Nat) : Nat × Nat :=
  if falsyStr companyName then (400, 0)
  else if falsyStr geminiKey then (500, 0)
  else rest

/-- A backward-search day that does not stop the loop: a null payload or
an empty candle list (`prevDayCandles && prevDayCandles.length > 0` is
false, src/index.js line 190). -/
def emptyDay (r : FetchResult) : Prop :=
  r = .ok none ∨ r = .ok (some [])

/-- The ltp the live-quote branch would use: some value exactly when the
call succeeded with a defined non-null ltp (src/index.js line 174). -/
def liveLtp (q : Except Unit (Option LiveData)) : Option ℚ :=
  match q with
  | .ok (some ld) => ld.ltp
  | _ => none

/-- Concrete candle used by witnesses: closing price 7. -/
def witnessCandle : Candle := ⟨"2025-01-01", 1, 9, 1, 7, 100⟩

/-- Concrete backward-search oracle: yesterday returns a null payload,
every earlier day returns one candle. -/
def witnessFetch : Nat → FetchResult :=
  fun i => if i = 0 then .ok none else .ok (some [witnessCandle])

/-- Concrete non-NSE instrument row. -/
def bseInstrument : Instrument := ⟨"BSE", "XYZ", "500325"⟩

/-- Concrete NSE equity instrument row. -/
def nseInstrument : Instrument := ⟨"NSE", "RELIANCE-EQ", "2885"⟩

/-- Concrete backward-search oracle where every day returns an empty
candle list. -/
def emptyFetch : Nat → FetchResult := fun _ => .ok (some [])

/-- Concrete backward-search oracle where the first day returns one candle
whose close is 0. -/
def zeroCloseFetch : Nat → FetchResult :=
  fun _ => .ok (some [⟨"2025-01-01", 1, 1, 1, 0, 1⟩])

/-- Concrete environment where the live quote succeeds with ltp 100 but
the first backward-search fetch throws: the year series has closes 10 then
20. -/
def c2Env : AnalysisEnv :=
  ⟨.ok (some [⟨"2025-01-02", 1, 11, 1, 10, 1⟩, ⟨"2025-01-03", 1, 21, 1, 20, 1⟩]),
   .ok (some ⟨some 100⟩), fun _ => .error ()⟩

theorem SMAcalculate_length (p : Nat) (v : List ℚ) :
    (SMAcalculate p v).length = v.length + 1 - p := by
  simp [SMAcalculate]

theorem RSIcalculate_length (p : Nat) (v : List ℚ) :
    (RSIcalculate p v).length = v.length + 1 - p := by
  simp [RSIcalculate]

theorem SMAcalculate_ne_nil {p : Nat} {v : List ℚ}
    (h : p ≤ v.length) : SMAcalculate p v ≠ [] := by
  have hl := SMAcalculate_length p v
  intro hnil
  rw [hnil] at hl
  simp only [List.length_nil] at hl
  omega

theorem RSIcalculate_ne_nil {p : Nat} {v : List ℚ}
    (h : p ≤ v.length) : RSIcalculate p v ≠ [] := by
  have hl := RSIcalculate_length p v
  intro hnil
  rw [hnil] at hl
  simp only [List.length_nil] at hl
  omega

theorem lastOrNull_nil : lastOrNull ([] : List ℚ) = none := rfl

theorem lastOrNull_isSome {l : List ℚ} (h : l ≠ []) :
    (lastOrNull l).isSome = true := by
  rw [lastOrNull, List.getLast?_eq_getLast_of_ne_nil h]
  rfl

theorem stockAnalysisRun_ok (q : Except Unit (Option LiveData))
    (pd : Nat → FetchResult) (candles : List Candle) (hne : candles ≠ []) :
    ∃ body : AnalysisBody,
      (stockAnalysisRun ⟨.ok (some candles), q, pd⟩).response = .ok body ∧
      body.rsi = lastOrNull (if 14 ≤ (candles.map Candle.close).length
        then RSIcalculate 14 (candles.map Candle.close) else []) ∧
      body.dma20 = lastOrNull (if 20 ≤ (candles.map Candle.close).length
        then SMAcalculate 20 (candles.map Candle.close) else []) ∧
      body.dma50 = lastOrNull (if 50 ≤ (candles.map Candle.close).length
        then SMAcalculate 50 (candles.map Candle.close) else []) ∧
      body.dma200 = lastOrNull (if 200 ≤ (candles.map Candle.close).length
        then SMAcalculate 200 (candles.map Candle.close) else []) := by
  rcases candles with _ | ⟨c0, cs0⟩
  · exact absurd rfl hne
  rcases q with e | ld
  · exact ⟨_, rfl, rfl, rfl, rfl, rfl⟩
  · rcases ld with _ | ld
    · exact ⟨_, rfl, rfl, rfl, rfl, rfl⟩
    · rcases ld with ⟨ltp⟩
      rcases ltp with _ | p
      · exact ⟨_, rfl, rfl, rfl, rfl, rfl⟩
      · rcases hpl : prevCloseLoop pd 0 5 with ⟨r, k⟩
        rcases r with e' | pc
        · simp only [stockAnalysisRun, hpl]
          exact ⟨_, rfl, rfl, rfl, rfl, rfl⟩
        · rcases pc with _ | qv
          · simp only [stockAnalysisRun, hpl]
            exact ⟨_, rfl, rfl, rfl, rfl, rfl⟩
          · rcases eq_or_ne qv 0 with h0 | h0
            · simp only [stockAnalysisRun, hpl, if_neg (not_not_intro h0)]
              exact ⟨_, rfl, rfl, rfl, rfl, rfl⟩
            · simp only [stockAnalysisRun, hpl, if_pos h0]
              exact ⟨_, rfl, rfl, rfl, rfl, rfl⟩

theorem prevCloseLoop_count_le (fetch : Nat → FetchResult) :
    ∀ (fuel i : Nat), (prevCloseLoop fetch i fuel).2 ≤ fuel := by
  intro fuel
  induction fuel with
  | zero => intro i; simp [prevCloseLoop]
  | succ n ih =>
    intro i
    rcases hf : fetch i with e | r
    · simp [prevCloseLoop, hf]
    · rcases r with _ | l
      · simpa [prevCloseLoop, hf] using ih (i + 1)
      · rcases l with _ | ⟨c, cs⟩
        · simpa [prevCloseLoop, hf] using ih (i + 1)
        · simp [prevCloseLoop, hf]

theorem prevCloseLoop_stops (fetch : Nat → FetchResult) :
    ∀ (j i fuel : Nat) (c : Candle) (cs : List Candle), j < fuel →
      (∀ m, m < j → emptyDay (fetch (i + m))) →
      fetch (i + j) = .ok (some (c :: cs)) →
      prevCloseLoop fetch i fuel = (.ok (some c.close), j + 1) := by
  intro j
  induction j with
  | zero =>
    intro i fuel c cs hlt _ hf
    cases fuel with
    | zero => exact absurd hlt (by omega)
    | succ n =>
      have hf0 : fetch i = .ok (some (c :: cs)) := by simpa using hf
      simp [prevCloseLoop, hf0]
  | succ k ih =>
    intro i fuel c cs hlt he hf
    cases fuel with
    | zero => exact absurd hlt (by omega)
    | succ n =>
      have h0 : emptyDay (fetch i) := by
        have h := he 0 (by omega)
        simpa using h
      have hrec : prevCloseLoop fetch (i + 1) n = (.ok (some c.close), k + 1) := by
        apply ih (i + 1) n c cs (by omega)
        · intro m hm
          have hidx : (i + 1) + m = i + (m + 1) := by omega
          rw [hidx]
          exact he (m + 1) (by omega)
        · have hidx : (i + 1) + k = i + (k + 1) := by omega
          rw [hidx]
          exact hf
      rcases h0 with h0 | h0 <;> simp [prevCloseLoop, h0, hrec]

theorem prevCloseLoop_all_empty (fetch : Nat → FetchResult) :
    ∀ (fuel i : Nat), (∀ m, m < fuel → emptyDay (fetch (i + m))) →
      prevCloseLoop fetch i fuel = (.ok none, fuel) := by
  intro fuel
  induction fuel with
  | zero => intro i _; simp [prevCloseLoop]
  | succ n ih =>
    intro i h
    have h0 : emptyDay (fetch i) := by
      have hh := h 0 (by omega)
      simpa using hh
    have hrec : prevCloseLoop fetch (i + 1) n = (.ok none, n) := by
      apply ih (i + 1)
      intro m hm
      have hidx : (i + 1) + m = i + (m + 1) := by omega
      rw [hidx]
      exact h (m + 1) (by omega)
    rcases h0 with h0 | h0 <;> simp [prevCloseLoop, h0, hrec]

/-- C5: the backward previous-trading-day search of /api/stock-analysis
performs at most 5 historical-data fetches for every sequence of upstream
responses, stops at the first day whose fetch returns a non-empty candle
list and takes that day's first candle's close, and when all 5 attempted
days are empty the previous close is reported unavailable (none) after
exactly 5 fetches. -/
theorem c5_backward_search_bounded :
    (∀ fetch : Nat → FetchResult, (prevCloseLoop fetch 0 5).2 ≤ 5) ∧
    (∀ (fetch : Nat → FetchResult) (j : Nat) (c : Candle) (cs : List Candle),
      j < 5 → (∀ m, m < j → emptyDay (fetch m)) →
      fetch j = .ok (some (c :: cs)) →
      prevCloseLoop fetch 0 5 = (.ok (some c.close), j + 1)) ∧
    (∀ fetch : Nat → FetchResult, (∀ m, m < 5 → emptyDay (fetch m)) →
      prevCloseLoop fetch 0 5 = (.ok none, 5)) := by
  refine ⟨fun fetch => prevCloseLoop_count_le fetch 5 0, ?_, ?_⟩
  · intro fetch j c cs hlt he hf
    apply prevCloseLoop_stops fetch j 0 5 c cs hlt
    · intro m hm
      rw [Nat.zero_add]
      exact he m hm
    · rw [Nat.zero_add]
      exact hf
  · intro fetch he
    apply prevCloseLoop_all_empty fetch 5 0
    intro m hm
    rw [Nat.zero_add]
    exact he m hm

theorem stockAnalysisRun_indicator_periods (q : Except Unit (Option LiveData))
    (pd : Nat → FetchResult) (candles : List Candle) (hne : candles ≠ []) :
    ∃ body : AnalysisBody,
      (stockAnalysisRun ⟨.ok (some candles), q, pd⟩).response = .ok body ∧
      (candles.length < 14 → body.rsi = none) ∧
      (14 ≤ candles.length → body.rsi.isSome = true) ∧
      (candles.length < 20 → body.dma20 = none) ∧
      (20 ≤ candles.length → body.dma20.isSome = true) ∧
      (candles.length < 50 → body.dma50 = none) ∧
      (50 ≤ candles.length → body.dma50.isSome = true) ∧
      (candles.length < 200 → body.dma200 = none) ∧
      (200 ≤ candles.length → body.dma200.isSome = true) := by
  obtain ⟨body, hresp, hrsi, h20, h50, h200⟩ := stockAnalysisRun_ok q pd candles hne
  have hmaplen : (candles.map Candle.close).length = candles.length :=
    List.length_map _ _
  refine ⟨body, hresp, ?_, ?_, ?_, ?_, ?_, ?_, ?_, ?_⟩
  · intro h
    rw [hrsi, if_neg (by omega), lastOrNull_nil]
  · intro h
    rw [hrsi, if_pos (by omega)]
    exact lastOrNull_isSome (RSIcalculate_ne_nil (by omega))
  · intro h
    rw [h20, if_neg (by omega), lastOrNull_nil]
  · intro h
    rw [h20, if_pos (by omega)]
    exact lastOrNull_isSome (SMAcalculate_ne_nil (by omega))
  · intro h
    rw [h50, if_neg (by omega), lastOrNull_nil]
  · intro h
    rw [h50, if_pos (by omega)]
    exact lastOrNull_isSome (SMAcalculate_ne_nil (by omega))
  · intro h
    rw [h200, if_neg (by omega), lastOrNull_nil]
  · intro h
    rw [h200, if_pos (by omega)]
    exact lastOrNull_isSome (SMAcalculate_ne_nil (by omega))

set_option maxRecDepth 4000 in
/-- C1 (amended): in the src/index.js /api/stock-analysis handler, for a
non-empty closing series each indicator field is null when the series is
shorter than that indicator's period and a computed value when the period
is satisfied, each of the four indicators independently.  The versions at
src/unnamed/part_001 lines 339-377 and src/unnamed/part_002 lines 153-186
instead reject any series shorter than 200 candles with 404 — so there an
indicator whose period is satisfied is still not reported — and with at
least 200 candles they report all four computed values. -/
theorem c1_indicator_periods_amended :
    (∀ (q : Except Unit (Option LiveData)) (pd : Nat → FetchResult)
      (candles : List Candle), candles ≠ [] →
      ∃ body : AnalysisBody,
        (stockAnalysisRun ⟨.ok (some candles), q, pd⟩).response = .ok body ∧
        (candles.length < 14 → body.rsi = none) ∧
        (14 ≤ candles.length → body.rsi.isSome = true) ∧
        (candles.length < 20 → body.dma20 = none) ∧
        (20 ≤ candles.length → body.dma20.isSome = true) ∧
        (candles.length < 50 → body.dma50 = none) ∧
        (50 ≤ candles.length → body.dma50.isSome = true) ∧
        (candles.length < 200 → body.dma200 = none) ∧
        (200 ≤ candles.length → body.dma200.isSome = true)) ∧
    (∀ candles : List Candle, candles.length < 200 →
      technicalIndicatorsRun (.ok (some candles)) = .notFound) ∧
    (∀ candles : List Candle, 200 ≤ candles.length →
      ∃ body : IndicatorsBody,
        technicalIndicatorsRun (.ok (some candles)) = .ok body ∧
        body.rsi.isSome = true ∧ body.dma20.isSome = true ∧
        body.dma50.isSome = true ∧ body.dma200.isSome = true) := by
  refine ⟨stockAnalysisRun_indicator_periods, ?_, ?_⟩
  · intro candles h
    simp only [technicalIndicatorsRun, if_pos h]
  · intro candles h
    have hmaplen : (candles.map Candle.close).length = candles.length :=
      List.length_map _ _
    simp only [technicalIndicatorsRun, if_neg (by omega : ¬ candles.length < 200)]
    refine ⟨_, rfl, ?_, ?_, ?_, ?_⟩
    · exact lastOrNull_isSome (RSIcalculate_ne_nil (by omega))
    · exact lastOrNull_isSome (SMAcalculate_ne_nil (by omega))
    · exact lastOrNull_isSome (SMAcalculate_ne_nil (by omega))
    · exact lastOrNull_isSome (SMAcalculate_ne_nil (by omega))

set_option maxRecDepth 4000 in
theorem c1_indicator_periods_amended_witness :
    (∃ body : IndicatorsBody,
      technicalIndicatorsRun (.ok (some (List.replicate 200 witnessCandle)))
        = .ok body ∧ body.rsi.isSome = true ∧ body.dma200.isSome = true) ∧
    (∃ body : AnalysisBody,
      (stockAnalysisRun ⟨.ok (some (List.replicate 20 witnessCandle)),
        .error (), witnessFetch⟩).response = .ok body ∧
      body.rsi.isSome = true ∧ body.dma20.isSome = true ∧
      body.dma50 = none ∧ body.dma200 = none) := by
  constructor
  · obtain ⟨body, hresp, hrsiS, _, _, h200S⟩ :=
      c1_indicator_periods_amended.2.2 (List.replicate 200 witnessCandle) (by simp)
    exact ⟨body, hresp, hrsiS, h200S⟩
  · obtain ⟨body, hresp, _, hrsiS, _, h20S, h50N, _, h200N, _⟩ :=
      c1_indicator_periods_amended.1 (.error ()) witnessFetch
        (List.replicate 20 witnessCandle) (by simp)
    exact ⟨body, hresp, hrsiS (by simp), h20S (by simp),
      h50N (by simp), h200N (by simp)⟩

set_option maxRecDepth 4000 in
/-- C1 (counterexample to the original claim): a request through the
part_001/part_002 indicator pipeline whose fetched series has 20 candles
— non-empty, with the RSI and 20-day periods satisfied — is answered 404,
so those indicators are not reported, contradicting the claim that
indicators whose period is satisfied are always reported on every
request. -/
theorem c1_insufficient_data_counterexample :
    technicalIndicatorsRun (.ok (some (List.replicate 20 witnessCandle)))
        = .notFound ∧
      14 ≤ (List.replicate 20 witnessCandle).length ∧
      20 ≤ (List.replicate 20 witnessCandle).length := by
  refine ⟨rfl, by simp, by simp⟩

theorem c5_backward_search_bounded_witness :
    prevCloseLoop witnessFetch 0 5 = (.ok (some 7), 2) ∧
      (prevCloseLoop witnessFetch 0 5).2 ≤ 5 := by
  constructor
  · exact c5_backward_search_bounded.2.1 witnessFetch 1 witnessCandle []
      (by omega)
      (by
        intro m hm
        have hm0 : m = 0 := by omega
        subst hm0
        exact Or.inl rfl)
      rfl
  · exact c5_backward_search_bounded.1 witnessFetch

/-- C4: on a /api/stock-analysis request where the live quote succeeds
with a defined non-null ltp and the backward search finds a non-null,
non-zero previous close, the response has currentPrice equal to the ltp,
netChange = currentPrice - prevClose, and
percentChange = netChange / prevClose * 100, all exact. -/
theorem c4_live_change_formulas (pd : Nat → FetchResult)
    (candles : List Candle) (p qv : ℚ) (k : Nat) (hne : candles ≠ [])
    (hloop : prevCloseLoop pd 0 5 = (.ok (some qv), k)) (hqv : qv ≠ 0) :
    ∃ body : AnalysisBody,
      (stockAnalysisRun ⟨.ok (some candles), .ok (some ⟨some p⟩), pd⟩).response
        = .ok body ∧
      body.currentPrice = some p ∧
      body.netChange = some (p - qv) ∧
      body.percentChange = some ((p - qv) / qv * 100) := by
  rcases candles with _ | ⟨c0, cs0⟩
  · exact absurd rfl hne
  simp only [stockAnalysisRun, hloop, if_pos hqv]
  exact ⟨_, rfl, rfl, rfl, rfl⟩

theorem c4_live_change_formulas_witness :
    ∃ body : AnalysisBody,
      (stockAnalysisRun ⟨.ok (some [witnessCandle]), .ok (some ⟨some 10⟩),
        witnessFetch⟩).response = .ok body ∧
      body.currentPrice = some 10 ∧
      body.netChange = some (10 - 7) ∧
      body.percentChange = some ((10 - 7) / 7 * 100) :=
  c4_live_change_formulas witnessFetch [witnessCandle] 10 7 2
    (by simp) rfl (by norm_num)

/-- C10: when the year-long historical fetch of /api/stock-analysis
returns a missing (null) or empty candle array, the endpoint responds 404
with no live-quote call, no backward-search fetch, and no fallback price
resolution. -/
theorem c10_no_history_404 (yf : FetchResult)
    (q : Except Unit (Option LiveData)) (pd : Nat → FetchResult)
    (h : yf = .ok none ∨ yf = .ok (some [])) :
    stockAnalysisRun ⟨yf, q, pd⟩ = ⟨.notFound, false, 0, false⟩ := by
  rcases h with h | h <;> subst h <;> rfl

theorem c10_no_history_404_witness :
    stockAnalysisRun ⟨.ok none, .error (), witnessFetch⟩
      = ⟨.notFound, false, 0, false⟩ :=
  c10_no_history_404 (.ok none) (.error ()) witnessFetch (Or.inl rfl)

theorem fallbackPrices_fst (closes : List ℚ) :
    (fallbackPrices closes).1 = closes.getLast? := by
  rcases h : closes.getLast? with _ | cur
  · simp [fallbackPrices, h]
  · simp only [fallbackPrices, h]
    by_cases h2 : 1 < closes.length
    · rw [dif_pos h2]
      by_cases hp : closes.get ⟨closes.length - 2, by omega⟩ ≠ 0
      · rw [if_pos hp]
      · rw [if_neg hp]
    · rw [dif_neg h2]

theorem fallbackPrices_eq (closes : List ℚ) (cur prev : ℚ)
    (h2 : 1 < closes.length) (hlast : closes.getLast? = some cur)
    (hprev : closes[closes.length - 2]? = some prev) :
    fallbackPrices closes =
      (some cur, if prev = 0 then (some 0, some 0)
        else (some (cur - prev), some ((cur - prev) / prev * 100))) := by
  rw [List.getElem?_eq_some] at hprev
  obtain ⟨hh, hget⟩ := hprev
  simp only [fallbackPrices, hlast]
  rw [dif_pos h2]
  simp only [List.get_eq_getElem, hget]
  by_cases hp : prev = 0
  · simp [hp]
  · simp [hp]

theorem appendPair_getLast (l : List ℚ) (a b : ℚ) :
    (l ++ [a, b]).getLast? = some b := by
  rw [List.getLast?_append_of_ne_nil l (by simp)]
  rfl

theorem appendPair_prev (l : List ℚ) (a b : ℚ) :
    (l ++ [a, b])[(l ++ [a, b]).length - 2]? = some a := by
  have hl : (l ++ [a, b]).length - 2 = l.length := by simp
  rw [hl, List.getElem?_append_right (by omega)]
  simp

theorem stockAnalysisRun_fallback (q : Except Unit (Option LiveData))
    (pd : Nat → FetchResult) (candles : List Candle) (hne : candles ≠ []) :
    ((stockAnalysisRun ⟨.ok (some candles), q, pd⟩).usedFallback = true ↔
      liveLtp q = none ∨ (prevCloseLoop pd 0 5).1 = .error ()) ∧
    ((stockAnalysisRun ⟨.ok (some candles), q, pd⟩).usedFallback = true →
      ∃ body : AnalysisBody,
        (stockAnalysisRun ⟨.ok (some candles), q, pd⟩).response = .ok body ∧
        (body.currentPrice, body.netChange, body.percentChange)
          = fallbackPrices (candles.map Candle.close)) := by
  rcases candles with _ | ⟨c0, cs0⟩
  · exact absurd rfl hne
  rcases q with e | ld
  · exact ⟨by simp [stockAnalysisRun, liveLtp], fun _ => ⟨_, rfl, rfl⟩⟩
  · rcases ld with _ | ld
    · exact ⟨by simp [stockAnalysisRun, liveLtp], fun _ => ⟨_, rfl, rfl⟩⟩
    · rcases ld with ⟨ltp⟩
      rcases ltp with _ | p
      · exact ⟨by simp [stockAnalysisRun, liveLtp], fun _ => ⟨_, rfl, rfl⟩⟩
      · rcases hpl : prevCloseLoop pd 0 5 with ⟨r, k⟩
        rcases r with e' | pc
        · constructor
          · simp [stockAnalysisRun, hpl, liveLtp]
          · intro _
            simp only [stockAnalysisRun, hpl]
            exact ⟨_, rfl, rfl⟩
        · rcases pc with _ | qv
          · constructor
            · simp [stockAnalysisRun, hpl, liveLtp]
            · intro hfb
              simp [stockAnalysisRun, hpl] at hfb
          · rcases eq_or_ne qv 0 with h0 | h0
            · constructor
              · simp [stockAnalysisRun, hpl, liveLtp, if_neg (not_not_intro h0)]
              · intro hfb
                simp [stockAnalysisRun, hpl, if_neg (not_not_intro h0)] at hfb
            · constructor
              · simp [stockAnalysisRun, hpl, liveLtp, if_pos h0]
              · intro hfb
                simp [stockAnalysisRun, hpl, if_pos h0] at hfb

/-- C2 (amended): the historical-fallback branch of /api/stock-analysis is
entered exactly when the live-quote call throws, returns data without a
defined non-null ltp, OR a backward-search historical fetch throws inside
the live branch; in the fallback, currentPrice is the last element of the
one-year closing series, and, writing the series as l ++ [a, b], the
change fields are b - a and (b - a) / a * 100 when a is non-zero, both 0
when a = 0, and both 0 when the series has a single point. -/
theorem c2_fallback_amended (q : Except Unit (Option LiveData))
    (pd : Nat → FetchResult) (candles : List Candle) (hne : candles ≠ []) :
    ((stockAnalysisRun ⟨.ok (some candles), q, pd⟩).usedFallback = true ↔
      liveLtp q = none ∨ (prevCloseLoop pd 0 5).1 = .error ()) ∧
    ((stockAnalysisRun ⟨.ok (some candles), q, pd⟩).usedFallback = true →
      ∃ body : AnalysisBody,
        (stockAnalysisRun ⟨.ok (some candles), q, pd⟩).response = .ok body ∧
        body.currentPrice = (candles.map Candle.close).getLast? ∧
        (∀ a : ℚ, candles.map Candle.close = [a] →
          body.netChange = some 0 ∧ body.percentChange = some 0) ∧
        (∀ (l : List ℚ) (a b : ℚ), candles.map Candle.close = l ++ [a, b] →
          (a = 0 → body.netChange = some 0 ∧ body.percentChange = some 0) ∧
          (a ≠ 0 → body.netChange = some (b - a) ∧
            body.percentChange = some ((b - a) / a * 100)))) := by
  obtain ⟨hiff, hbody⟩ := stockAnalysisRun_fallback q pd candles hne
  refine ⟨hiff, fun hfb => ?_⟩
  obtain ⟨body, hresp, htriple⟩ := hbody hfb
  have hcur : body.currentPrice = (fallbackPrices (candles.map Candle.close)).1 := by
    rw [← htriple]
  have hnet : body.netChange = (fallbackPrices (candles.map Candle.close)).2.1 := by
    rw [← htriple]
  have hpct : body.percentChange = (fallbackPrices (candles.map Candle.close)).2.2 := by
    rw [← htriple]
  refine ⟨body, hresp, ?_, ?_, ?_⟩
  · rw [hcur, fallbackPrices_fst]
  · intro a ha
    rw [hnet, hpct, ha]
    exact ⟨rfl, rfl⟩
  · intro l a b hab
    have hfp := fallbackPrices_eq (candles.map Candle.close) b a
      (by rw [hab]; simp)
      (by rw [hab]; exact appendPair_getLast l a b)
      (by rw [hab]; exact appendPair_prev l a b)
    constructor
    · intro ha0
      rw [hnet, hpct, hfp, if_pos ha0]
      exact ⟨rfl, rfl⟩
    · intro ha0
      rw [hnet, hpct, hfp, if_neg ha0]
      exact ⟨rfl, rfl⟩

theorem c2_fallback_amended_witness :
    (stockAnalysisRun c2Env).usedFallback = true ∧
      ∃ body : AnalysisBody, (stockAnalysisRun c2Env).response = .ok body ∧
        body.netChange = some (20 - 10) ∧
        body.percentChange = some ((20 - 10) / 10 * 100) := by
  obtain ⟨hiff, hbody⟩ := c2_fallback_amended (.ok (some ⟨some 100⟩))
    (fun _ => .error ())
    [⟨"2025-01-02", 1, 11, 1, 10, 1⟩, ⟨"2025-01-03", 1, 21, 1, 20, 1⟩]
    (by simp)
  have hfb : (stockAnalysisRun c2Env).usedFallback = true := by
    rw [show c2Env = ⟨.ok (some [⟨"2025-01-02", 1, 11, 1, 10, 1⟩,
      ⟨"2025-01-03", 1, 21, 1, 20, 1⟩]), .ok (some ⟨some 100⟩),
      fun _ => .error ()⟩ from rfl]
    exact hiff.mpr (Or.inr rfl)
  obtain ⟨body, hresp, _, _, happ⟩ := hbody hfb
  obtain ⟨_, hvals⟩ := happ [] 10 20 rfl
  obtain ⟨hnet, hpct⟩ := hvals (by norm_num)
  exact ⟨hfb, body, hresp, hnet, hpct⟩

/-- C2 (counterexample to the original claim): the live quote here
succeeds with a defined non-null ltp of 100, yet the fallback branch runs
(the first backward-search fetch throws inside the live branch) and the
response carries the historical closes 20 and 10, not the live price. -/
theorem c2_fallback_trigger_counterexample :
    c2Env.quote = .ok (some ⟨some 100⟩) ∧
      stockAnalysisRun c2Env =
        ⟨.ok ⟨some 20, some 10, some 100, none, none, none, none⟩,
          true, 1, true⟩ := by
  refine ⟨rfl, ?_⟩
  have h10 : prevCloseLoop (fun _ => (.error () : FetchResult)) 0 5
      = (.error (), 1) := rfl
  have hfp : fallbackPrices [10, 20] = (some 20, some 10, some 100) := by
    have h := fallbackPrices_eq [10, 20] 20 10 (by norm_num) rfl rfl
    rw [h, if_neg (by norm_num)]
    norm_num
  show stockAnalysisRun ⟨.ok (some [⟨"2025-01-02", 1, 11, 1, 10, 1⟩,
    ⟨"2025-01-03", 1, 21, 1, 20, 1⟩]), .ok (some ⟨some 100⟩),
    fun _ => .error ()⟩ = _
  simp only [stockAnalysisRun, h10, List.map_cons, List.map_nil]
  simp [hfp, lastOrNull_nil]

/-- C3 (amended): in the live and fallback branches of
/api/stock-analysis, whenever the previous close is unavailable or 0,
netChange and percentChange are both exactly 0.  In the /api/market-data
OHLC fallback, both fields are 0 when no previous close is found, but
when a previous close of exactly 0 is found percentChange is 0 while
netChange equals the current close.  /api/top-performers has no zero
guard: with ohlc.close = 0 its change field equals the full ltp.  All
guarded paths stay in exact rational arithmetic (no division by zero is
ever performed there). -/
theorem c3_zero_prev_change_amended :
    (∀ (pd : Nat → FetchResult) (candles : List Candle) (p : ℚ) (k : Nat),
      candles ≠ [] → prevCloseLoop pd 0 5 = (.ok none, k) →
      ∃ body : AnalysisBody,
        (stockAnalysisRun ⟨.ok (some candles), .ok (some ⟨some p⟩), pd⟩).response
          = .ok body ∧
        body.netChange = some 0 ∧ body.percentChange = some 0) ∧
    (∀ (pd : Nat → FetchResult) (candles : List Candle) (p : ℚ) (k : Nat),
      candles ≠ [] → prevCloseLoop pd 0 5 = (.ok (some 0), k) →
      ∃ body : AnalysisBody,
        (stockAnalysisRun ⟨.ok (some candles), .ok (some ⟨some p⟩), pd⟩).response
          = .ok body ∧
        body.netChange = some 0 ∧ body.percentChange = some 0) ∧
    (∀ (q : Except Unit (Option LiveData)) (pd : Nat → FetchResult)
      (candles : List Candle) (a : ℚ), candles ≠ [] →
      (stockAnalysisRun ⟨.ok (some candles), q, pd⟩).usedFallback = true →
      candles.map Candle.close = [a] →
      ∃ body : AnalysisBody,
        (stockAnalysisRun ⟨.ok (some candles), q, pd⟩).response = .ok body ∧
        body.netChange = some 0 ∧ body.percentChange = some 0) ∧
    (∀ (q : Except Unit (Option LiveData)) (pd : Nat → FetchResult)
      (candles : List Candle) (l : List ℚ) (b : ℚ), candles ≠ [] →
      (stockAnalysisRun ⟨.ok (some candles), q, pd⟩).usedFallback = true →
      candles.map Candle.close = l ++ [0, b] →
      ∃ body : AnalysisBody,
        (stockAnalysisRun ⟨.ok (some candles), q, pd⟩).response = .ok body ∧
        body.netChange = some 0 ∧ body.percentChange = some 0) ∧
    (∀ (pf : Nat → FetchResult) (cc : ℚ) (k : Nat),
      prevCloseLoop pf 0 5 = (.ok none, k) →
      marketDataItem pf cc = .ok ⟨cc, 0, 0, cc⟩) ∧
    (∀ (pf : Nat → FetchResult) (cc : ℚ) (k : Nat),
      prevCloseLoop pf 0 5 = (.ok (some 0), k) →
      marketDataItem pf cc = .ok ⟨cc, cc, 0, cc⟩) ∧
    (∀ s : OhlcStock, s.ohlcClose = 0 → (topPerformerEntry s).change = s.ltp) := by
  refine ⟨?_, ?_, ?_, ?_, ?_, ?_, ?_⟩
  · intro pd candles p k hne hloop
    rcases candles with _ | ⟨c0, cs0⟩
    · exact absurd rfl hne
    simp only [stockAnalysisRun, hloop]
    exact ⟨_, rfl, rfl, rfl⟩
  · intro pd candles p k hne hloop
    rcases candles with _ | ⟨c0, cs0⟩
    · exact absurd rfl hne
    simp only [stockAnalysisRun, hloop,
      if_neg (not_not_intro (rfl : (0 : ℚ) = 0))]
    exact ⟨_, rfl, rfl, rfl⟩
  · intro q pd candles a hne hfb hmap
    obtain ⟨_, hbody⟩ := stockAnalysisRun_fallback q pd candles hne
    obtain ⟨body, hresp, htriple⟩ := hbody hfb
    have hnet : body.netChange = (fallbackPrices (candles.map Candle.close)).2.1 := by
      rw [← htriple]
    have hpct : body.percentChange = (fallbackPrices (candles.map Candle.close)).2.2 := by
      rw [← htriple]
    rw [hmap] at hnet hpct
    exact ⟨body, hresp, hnet, hpct⟩
  · intro q pd candles l b hne hfb hmap
    obtain ⟨_, hbody⟩ := stockAnalysisRun_fallback q pd candles hne
    obtain ⟨body, hresp, htriple⟩ := hbody hfb
    have hnet : body.netChange = (fallbackPrices (candles.map Candle.close)).2.1 := by
      rw [← htriple]
    have hpct : body.percentChange = (fallbackPrices (candles.map Candle.close)).2.2 := by
      rw [← htriple]
    have hfp := fallbackPrices_eq (candles.map Candle.close) b 0
      (by rw [hmap]; simp)
      (by rw [hmap]; exact appendPair_getLast l 0 b)
      (by rw [hmap]; exact appendPair_prev l 0 b)
    rw [if_pos rfl] at hfp
    rw [hfp] at hnet hpct
    exact ⟨body, hresp, hnet, hpct⟩
  · intro pf cc k hloop
    simp only [marketDataItem, hloop]
  · intro pf cc k hloop
    simp only [marketDataItem, hloop]
    simp
  · intro s h
    simp [topPerformerEntry, h]

theorem c3_zero_prev_change_amended_witness :
    marketDataItem emptyFetch 5 = .ok ⟨5, 0, 0, 5⟩ ∧
      (topPerformerEntry ⟨"A", "A-EQ", 12, 0⟩).change = 12 := by
  constructor
  · exact c3_zero_prev_change_amended.2.2.2.2.1 emptyFetch 5 5 rfl
  · exact c3_zero_prev_change_amended.2.2.2.2.2.2 ⟨"A", "A-EQ", 12, 0⟩ rfl

/-- C3 (counterexample to the original claim): in the /api/market-data
OHLC fallback, when the backward search finds a previous close of exactly
0 for an item whose day close is 5, the reported netChange is 5, not 0 —
contradicting the claim that a zero previous close always yields
netChange 0 on every price-computation path. -/
theorem c3_zero_prev_counterexample :
    marketDataItem zeroCloseFetch 5 = .ok ⟨5, 5, 0, 5⟩ ∧ (5 : ℚ) ≠ 0 := by
  constructor
  · have hloop : prevCloseLoop zeroCloseFetch 0 5 = (.ok (some 0), 1) := rfl
    simp only [marketDataItem, hloop]
    simp
  · norm_num

/-- C6 (amended): the filtering /api/instruments handlers (src/index.js
lines 115-127 and the identical copies) return exactly the upstream rows
with exch_seg 'NSE' and a symbol ending in '-EQ'; the handler at
src/unnamed/part_000 lines 571-579 instead returns the upstream list
unchanged, so non-NSE rows pass through it. -/
theorem c6_instruments_filter_amended :
    (∀ (upstream : List Instrument) (i : Instrument),
      i ∈ instrumentsFiltered upstream →
      i.exch_seg = nseSeg ∧ strEndsWith i.symbol eqSuffix = true) ∧
    (∀ (upstream : List Instrument) (i : Instrument), i ∈ upstream →
      i.exch_seg = nseSeg → strEndsWith i.symbol eqSuffix = true →
      i ∈ instrumentsFiltered upstream) ∧
    (∀ upstream : List Instrument, instrumentsRaw upstream = upstream) := by
  refine ⟨?_, ?_, fun _ => rfl⟩
  · intro upstream i h
    simp only [instrumentsFiltered, List.mem_filter, Bool.and_eq_true,
      beq_iff_eq] at h
    exact ⟨h.2.1, h.2.2⟩
  · intro upstream i hmem h1 h2
    simp only [instrumentsFiltered, List.mem_filter, Bool.and_eq_true,
      beq_iff_eq]
    exact ⟨hmem, h1, h2⟩

theorem c6_instruments_filter_amended_witness :
    nseInstrument.exch_seg = nseSeg ∧
      strEndsWith nseInstrument.symbol eqSuffix = true :=
  c6_instruments_filter_amended.1 [nseInstrument] nseInstrument (by decide)

/-- C6 (counterexample to the original claim): the /api/instruments
handler of src/unnamed/part_000 lines 571-579 passes a BSE row straight
through to its response, so not every version's output is restricted to
NSE '-EQ' entries. -/
theorem c6_instruments_counterexample :
    bseInstrument ∈ instrumentsRaw [bseInstrument] ∧
      bseInstrument.exch_seg ≠ nseSeg := by
  constructor
  · simp [instrumentsRaw]
  · decide

/-- C7: for every route guarded by requireLogin, when the session's
jwtToken is null the server responds 401 with zero upstream calls and an
unchanged session, for every possible handler, so the handler is never
invoked. -/
theorem c7_require_login_401 (s : Session) (handler : Session → RouteResult)
    (h : s.jwtToken = none) :
    requireLogin s handler = ⟨401, 0, s⟩ := by
  have hf : falsyStr s.jwtToken = true := by rw [h]; rfl
  rw [requireLogin, if_pos hf]

theorem c7_require_login_401_witness :
    requireLogin ⟨none, none, none, none⟩ (fun s => ⟨200, 1, s⟩)
      = ⟨401, 0, ⟨none, none, none, none⟩⟩ :=
  c7_require_login_401 ⟨none, none, none, none⟩ (fun s => ⟨200, 1, s⟩) rfl

/-- C8: when any of the four broker environment credentials is absent,
/api/login responds 500 with zero network calls and an unchanged session,
whatever the rest of the handler would do. -/
theorem c8_login_missing_creds_500 (c : Creds) (s : Session)
    (rest : Session → RouteResult)
    (h : c.apiKey = none ∨ c.clientId = none ∨ c.password = none ∨
      c.totpSecret = none) :
    loginRoute c s rest = ⟨500, 0, s⟩ := by
  rcases h with h | h | h | h <;> simp [loginRoute, falsyStr, h]

theorem c8_login_missing_creds_500_witness :
    loginRoute ⟨none, some ("id"), some ("pw"), some ("totp")⟩
      ⟨none, none, none, none⟩ (fun s => ⟨200, 1, s⟩)
      = ⟨500, 0, ⟨none, none, none, none⟩⟩ :=
  c8_login_missing_creds_500 ⟨none, some ("id"), some ("pw"), some ("totp")⟩
    ⟨none, none, none, none⟩ (fun s => ⟨200, 1, s⟩) (Or.inl rfl)

/-- C9 (amended): a request without companyName makes no AI call on
either endpoint; /api/generate-news-summary always answers it 400, while
/api/company-details answers it 400 only when the AI key is configured —
its key check runs first, so with the key also missing it answers 500. -/
theorem c9_missing_company_amended :
    (∀ (key : Option String) (rest : Nat × Nat),
      newsSummaryRoute none key rest = (400, 0)) ∧
    (∀ (key : Option String) (rest : Nat × Nat), falsyStr key = false →
      companyDetailsRoute key none rest = (400, 0)) ∧
    (∀ (key : Option String) (rest : Nat × Nat), falsyStr key = true →
      companyDetailsRoute key none rest = (500, 0)) := by
  refine ⟨fun key rest => rfl, ?_, ?_⟩
  · intro key rest h
    have hcond : ¬ (falsyStr key = true) := by rw [h]; simp
    rw [companyDetailsRoute, if_neg hcond]
    rfl
  · intro key rest h
    rw [companyDetailsRoute, if_pos h]

theorem c9_missing_company_amended_witness :
    companyDetailsRoute (some ("k")) none (200, 1) = (400, 0) ∧
      newsSummaryRoute none (some ("k")) (200, 1) = (400, 0) :=
  ⟨c9_missing_company_amended.2.1 (some ("k")) (200, 1) rfl,
   c9_missing_company_amended.1 (some ("k")) (200, 1)⟩

/-- C9 (counterexample to the original claim): with the AI key not
configured, a /api/company-details request without companyName is
answered 500, not 400, because the key guard precedes the body guard. -/
theorem c9_missing_company_counterexample :
    companyDetailsRoute none none (200, 1) = (500, 0) ∧ (500 : Nat) ≠ 400 := by
  exact ⟨rfl, by decide⟩

end AngelOne
